import Mathlib

/-!
Verification of the session controller in `python/mlc_chat` (chat_module.py,
callback.py): the configuration layer (ConvConfig / ChatConfig merge and
serialization), the model-path resolver error cases, the streaming
reconciler, and the generate / reset_chat state machines.

Python machine values are embedded as: `float` fields as `Rat` (merge and
serialization only move values around, they never compute with them),
`int` as `Int`, `str` as `String`, `bool` as `Bool`, lists as `List`,
optional fields as `Option`, UTF-8 byte sequences as `List Nat`.
Python in-place mutation is embedded as explicit state passing: a mutating
function returns the post-call value of the object it mutates.
-/

/-- Embeds dataclass `ConvConfig` of chat_module.py: the user's partial
override of a conversation template; every field is `Optional` (`None`
embedded as `Option.none`). `messages` is a list of role/message string
pairs, embedded as `List (List String)` as the Python comment describes. -/
structure ConvConfig where
  name : Option String := none
  system : Option String := none
  roles : Option (List String) := none
  messages : Option (List (List String)) := none
  offset : Option String := none
  separator_style : Option Int := none
  seps : Option (List String) := none
  role_msg_sep : Option String := none
  role_empty_sep : Option String := none
  stop_str : Option String := none
  stop_tokens : Option (List Int) := none
  add_bos : Option Bool := none
deriving DecidableEq, Repr

/-- Embeds dataclass `ChatConfig` of chat_module.py: a partial session
configuration; also used to represent the parsed `mlc-chat-config.json`
document during merging. -/
structure ChatConfig where
  model_lib : Option String := none
  local_id : Option String := none
  conv_template : Option String := none
  temperature : Option Rat := none
  repetition_penalty : Option Rat := none
  top_p : Option Rat := none
  mean_gen_len : Option Int := none
  max_gen_len : Option Int := none
  shift_fill_factor : Option Rat := none
  tokenizer_files : Option (List String) := none
  conv_config : Option ConvConfig := none
  model_category : Option String := none
  model_name : Option String := none
deriving DecidableEq, Repr

/-- One field-level override step of `_get_chat_config`'s loop
(`if field_value is not None: setattr(final_chat_config, field_name,
field_value)`): a non-None override value replaces the base value, a None
override value leaves the base value untouched. -/
def ov {α : Type} (b o : Option α) : Option α :=
  match o with
  | some v => some v
  | none => b

/-- Embeds the pure core of `_get_chat_config` (chat_module.py lines
297-308): start from the base config parsed out of the config file, then
for every field of the user's partial config, overwrite the base field
when the user's value is non-None. Note the `conv_config` field is
overwritten exactly like every other field (wholesale), since the Python
loop runs the same `setattr` for it. A `none` user config performs no
override at all. -/
def get_chat_config (base : ChatConfig) (user_chat_config : Option ChatConfig) : ChatConfig :=
  match user_chat_config with
  | none => base
  | some u =>
      { model_lib := ov base.model_lib u.model_lib
        local_id := ov base.local_id u.local_id
        conv_template := ov base.conv_template u.conv_template
        temperature := ov base.temperature u.temperature
        repetition_penalty := ov base.repetition_penalty u.repetition_penalty
        top_p := ov base.top_p u.top_p
        mean_gen_len := ov base.mean_gen_len u.mean_gen_len
        max_gen_len := ov base.max_gen_len u.max_gen_len
        shift_fill_factor := ov base.shift_fill_factor u.shift_fill_factor
        tokenizer_files := ov base.tokenizer_files u.tokenizer_files
        conv_config := ov base.conv_config u.conv_config
        model_category := ov base.model_category u.model_category
        model_name := ov base.model_name u.model_name }

/-- Embeds `_first_idx_mismatch` (chat_module.py lines 485-490) on UTF-8
byte sequences: the first index where the two sequences differ, or the
length of the shorter one when no position of the zipped traversal
differs. -/
def first_idx_mismatch : List Nat → List Nat → Nat
  | a :: as, b :: bs => if a = b then first_idx_mismatch as bs + 1 else 0
  | _, _ => 0

/-- The delta the generate loop computes at one reconciliation point
(chat_module.py lines 610-615): with `pos` the first mismatch index,
one erase instruction (`"\b \b"`) per byte of the previous snapshot past
`pos`, followed by the bytes of the current snapshot from `pos` on. -/
def reconcile (cur new : List Nat) : Nat × List Nat :=
  (cur.length - first_idx_mismatch cur new, new.drop (first_idx_mismatch cur new))

/-- Values of the JSON dictionary built by `_convert_chat_config_to_json_str`
before `json.dumps`: the value shapes that actually occur in a `ChatConfig`
or `ConvConfig` field. -/
inductive JVal where
  | s : String → JVal
  | q : Rat → JVal
  | i : Int → JVal
  | b : Bool → JVal
  | ls : List String → JVal
  | lls : List (List String) → JVal
  | li : List Int → JVal
  | dict : List (String × JVal) → JVal

/-- One step of the omission loop in `_convert_chat_config_to_json_str`
(`if v is not None: chat_dict[k] = v`): a None field contributes no key,
a set field contributes its key and encoded value. Python dict insertions
happen in dataclass field order, embedded as list concatenation. -/
def optEntry {α : Type} (k : String) (f : α → JVal) (o : Option α) : List (String × JVal) :=
  match o with
  | none => []
  | some v => [(k, f v)]

/-- The nested dictionary `_convert_chat_config_to_json_str` builds for a
non-None `conv_config` (chat_module.py lines 440-447): the conv fields,
in dataclass declaration order, omitting None ones. -/
def convConfigDict (c : ConvConfig) : List (String × JVal) :=
  optEntry "name" JVal.s c.name ++
  optEntry "system" JVal.s c.system ++
  optEntry "roles" JVal.ls c.roles ++
  optEntry "messages" JVal.lls c.messages ++
  optEntry "offset" JVal.s c.offset ++
  optEntry "separator_style" JVal.i c.separator_style ++
  optEntry "seps" JVal.ls c.seps ++
  optEntry "role_msg_sep" JVal.s c.role_msg_sep ++
  optEntry "role_empty_sep" JVal.s c.role_empty_sep ++
  optEntry "stop_str" JVal.s c.stop_str ++
  optEntry "stop_tokens" JVal.li c.stop_tokens ++
  optEntry "add_bos" JVal.b c.add_bos

/-- The top-level dictionary `_convert_chat_config_to_json_str` builds
(chat_module.py lines 438-450): fields of the (already template-patched)
config in dataclass declaration order, omitting None ones; a non-None
`conv_config` becomes a nested dictionary filtered the same way. -/
def chatConfigDict (c : ChatConfig) : List (String × JVal) :=
  optEntry "model_lib" JVal.s c.model_lib ++
  optEntry "local_id" JVal.s c.local_id ++
  optEntry "conv_template" JVal.s c.conv_template ++
  optEntry "temperature" JVal.q c.temperature ++
  optEntry "repetition_penalty" JVal.q c.repetition_penalty ++
  optEntry "top_p" JVal.q c.top_p ++
  optEntry "mean_gen_len" JVal.i c.mean_gen_len ++
  optEntry "max_gen_len" JVal.i c.max_gen_len ++
  optEntry "shift_fill_factor" JVal.q c.shift_fill_factor ++
  optEntry "tokenizer_files" JVal.ls c.tokenizer_files ++
  optEntry "conv_config" (fun cc => JVal.dict (convConfigDict cc)) c.conv_config ++
  optEntry "model_category" JVal.s c.model_category ++
  optEntry "model_name" JVal.s c.model_name

/-- Embeds `_convert_chat_config_to_json_str` (chat_module.py lines
415-452). The serialized output is embedded structurally: `none` stands
for the empty string returned when `chat_config is None`, and `some d`
for `json.dumps` of the dictionary `d`. The function first mutates its
argument in place (`chat_config.conv_template = conv_template`); the
mutation is embedded by returning the post-call value of the caller's
`chat_config` object as the first component. The Python parameter is
annotated `str` but receives `self.chat_config.conv_template`, whose
type is `Optional[str]`, so the template argument is an `Option String`
assigned verbatim to the field. -/
def convert_chat_config_to_json_str (chat_config : Option ChatConfig)
    (conv_template : Option String) :
    Option ChatConfig × Option (List (String × JVal)) :=
  match chat_config with
  | none => (none, none)
  | some c =>
      let c' := { c with conv_template := conv_template }
      (some c', some (chatConfigDict c'))

/-- One invocation of the progress callback during `generate`
(chat_module.py lines 607-619, callback.py lines 18-31): either a delta
message, recorded as the erase count (`"\b \b"` repetitions) together
with the appended bytes that make up `print_msg`, or the final
end-of-stream invocation (`progress_callback(stopped=True)`). -/
inductive SinkCall where
  | msg : Nat → List Nat → SinkCall
  | stop : SinkCall
deriving DecidableEq, Repr

/-- A pure mock of the inference backend as `generate` observes it:
`message n` is the full accumulated output snapshot (UTF-8 bytes) after
`n` decode calls, and `stoppedAt n` is what the backend's stop test
reports after `n` decode calls. -/
structure MockBackend where
  message : Nat → List Nat
  stoppedAt : Nat → Bool

/-- Embeds the decode loop of `ChatModule.generate` (chat_module.py lines
604-619). `i` is the loop counter, which also counts decode calls issued
so far; `cur` is `cur_utf8_chars`; `acc` accumulates the sink calls in
order. Each iteration tests the stop condition, decodes one token, and on
poll iterations (`i % interval == 0 or stopped`) fetches the snapshot,
reconciles it against `cur` and forwards the delta to the sink; leaving
the loop appends the end-of-stream call. `fuel` bounds the unboundedly
recursive source loop; `none` means the loop did not terminate within
`fuel` iterations. -/
def generateLoop (b : MockBackend) (interval : Nat) :
    Nat → Nat → List Nat → List SinkCall → Option (List SinkCall)
  | 0, _, _, _ => none
  | fuel + 1, i, cur, acc =>
      if b.stoppedAt i then
        some (acc ++ [SinkCall.stop])
      else
        if i % interval == 0 || b.stoppedAt (i + 1) then
          let newMsg := b.message (i + 1)
          let pos := first_idx_mismatch cur newMsg
          generateLoop b interval fuel (i + 1) newMsg
            (acc ++ [SinkCall.msg (cur.length - pos) (newMsg.drop pos)])
        else
          generateLoop b interval fuel (i + 1) cur acc

/-- Embeds `ChatModule.generate` (chat_module.py lines 585-619): after the
prefill, run the decode loop starting with `i = 0` and the empty byte
snapshot (`"".encode("utf-8")`), producing the ordered sink-call trace. -/
def generate (b : MockBackend) (interval : Nat) (fuel : Nat) : Option (List SinkCall) :=
  generateLoop b interval fuel 0 [] []

/-- A pure view of the file system as `_get_model_path` probes it:
whether a path names an existing regular file or an existing directory.
The coherence field captures the real file-system fact the resolver
relies on: a file that exists inside a directory entails that the
directory exists. -/
structure FileSystem where
  isFile : String → Bool
  isDir : String → Bool
  file_in_dir : ∀ d f : String, isFile (d ++ "/" ++ f) = true → isDir d = true

/-- The candidate search paths of `_get_model_path` (chat_module.py lines
228-233), in search-priority order: the identifier itself, the prebuilt
directory, the default build output directory, and the prebuilt directory
with the `mlc-chat-` name prefixed. -/
def candidate_paths (model : String) : List String :=
  [model,
   "dist/prebuilt/" ++ model,
   "dist/" ++ model ++ "/params",
   "dist/prebuilt/mlc-chat-" ++ model]

/-- Outcome of `_get_model_path`: a valid model folder together with its
chat-config file path, or one of the two `FileNotFoundError` cases the
source distinguishes: `errMissingConfig` (some candidate is a directory
but none holds `mlc-chat-config.json`; the message lists the directories
found) and `errNotFound` (no candidate is a directory; the message lists
every candidate path searched). -/
inductive ModelPathResult where
  | found : String → String → ModelPathResult
  | errMissingConfig : List String → ModelPathResult
  | errNotFound : List String → ModelPathResult
deriving DecidableEq, Repr

/-- Embeds `_get_model_path` (chat_module.py lines 205-279): return the
first candidate path holding `mlc-chat-config.json`; otherwise raise the
directory-without-config error listing the candidate directories that do
exist, or, when none exists, the not-found error listing all candidate
paths. -/
def get_model_path (fs : FileSystem) (model : String) : ModelPathResult :=
  match (candidate_paths model).find? (fun c => fs.isFile (c ++ "/" ++ "mlc-chat-config.json")) with
  | some c => ModelPathResult.found c (c ++ "/" ++ "mlc-chat-config.json")
  | none =>
      let dirs := (candidate_paths model).filter fs.isDir
      if dirs.isEmpty then ModelPathResult.errNotFound (candidate_paths model)
      else ModelPathResult.errMissingConfig dirs

/-- One backend call `reset_chat` issues, in order: the history-clearing
`reset_chat_func()` and the `load_json_override_func(payload, part_update)`
call (chat_module.py lines 638-646). The payload is the structural view
of the JSON string (`none` = empty string). -/
inductive BackendCall where
  | resetChatCall : BackendCall
  | loadJsonOverride : Option (List (String × JVal)) → Bool → BackendCall

/-- The committed per-session state `reset_chat` touches: the contents the
config-file path currently yields when read and parsed (reading can fail,
embedded as `Except Unit ChatConfig`), and the session's committed merged
`self.chat_config`. -/
structure SessionState where
  configDoc : Except Unit ChatConfig
  chat_config : ChatConfig

/-- Embeds `_get_chat_config` including its fallible file read
(chat_module.py lines 297-308): propagate a read/parse failure, otherwise
merge the parsed base document with the user's partial config. -/
def get_chat_config_io (doc : Except Unit ChatConfig) (user_chat_config : Option ChatConfig) :
    Except Unit ChatConfig :=
  match doc with
  | Except.error e => Except.error e
  | Except.ok base => Except.ok (get_chat_config base user_chat_config)

/-- Embeds `ChatModule.reset_chat` (chat_module.py lines 621-646). Returns
the post-call session state, the ordered backend calls issued, and whether
an exception escaped. The backend history-clearing call always happens
first; with no override nothing else happens; with an override, the config
is re-read and re-merged — if that raises, the committed `chat_config` is
left unchanged and no override-load call is issued — then the override is
serialized against the re-merged template name (mutating the caller's
override object, kept implicit here since the caller's object is dead
afterwards) and loaded with the partial-update flag set to `True`. -/
def reset_chat (st : SessionState) (chat_config : Option ChatConfig) :
    SessionState × List BackendCall × Bool :=
  match chat_config with
  | none => (st, [BackendCall.resetChatCall], false)
  | some o =>
      match get_chat_config_io st.configDoc (some o) with
      | Except.error _ => (st, [BackendCall.resetChatCall], true)
      | Except.ok merged =>
          let payload := (convert_chat_config_to_json_str (some o) merged.conv_template).2
          ({ st with chat_config := merged },
           [BackendCall.resetChatCall, BackendCall.loadJsonOverride payload true],
           false)

/-- Lookup of a key in the structural view of a JSON dictionary: the value
bound to the first pair whose key matches, if any. Used to state which keys
the serialized payload contains. -/
def dictFind (k : String) : List (String × JVal) → Option JVal
  | [] => none
  | (k', v) :: rest => if k = k' then some v else dictFind k rest

/-- Key-membership in the structural view of a JSON dictionary. -/
def hasKey (k : String) (d : List (String × JVal)) : Bool :=
  (dictFind k d).isSome

/-- Mock backend for the full-generate-cycle scenario: successive decode
calls yield the snapshots `""`, `"Hi"`, `"Hi!"` (UTF-8 bytes `[]`,
`[72, 105]`, `[72, 105, 33]`), and the stop test first reports true after
the third decode call. -/
def scenarioBackend : MockBackend :=
  { message := fun n => if n ≤ 1 then [] else if n = 2 then [72, 105] else [72, 105, 33]
    stoppedAt := fun n => decide (3 ≤ n) }

/-- Base configuration for the nested-merge counterexample: its nested
conversation sub-record sets only `system`. -/
def convMergeBaseConv : ConvConfig := { system := some "A chat." }

/-- Base configuration holding `convMergeBaseConv` as its nested sub-record. -/
def convMergeBase : ChatConfig :=
  { conv_template := some "llama-2", conv_config := some convMergeBaseConv }

/-- Override whose nested conversation sub-record sets only a different
field (`name`), leaving `system` unset. -/
def convMergeOvConv : ConvConfig := { name := some "redpajama_chat" }

/-- Override holding `convMergeOvConv` as its nested sub-record. -/
def convMergeOv : ChatConfig := { conv_config := some convMergeOvConv }

/-- Concrete base document for merge witnesses: resolved template, a
temperature and a top-p. -/
def witnessBase : ChatConfig :=
  { conv_template := some "llama-2", temperature := some (7/10), top_p := some (19/20) }

/-- Concrete sparse override for merge witnesses: sets only `top_p`. -/
def witnessOverride : ChatConfig := { top_p := some (4/5) }

/-- Concrete override for serialization witnesses: a temperature and a
nested conversation record setting only `system`. -/
def witnessSerOverride : ChatConfig :=
  { temperature := some (1/2), conv_config := some { system := some "A chat." } }

/-- Session state for the partial-reset witness: the config file reads as
`witnessBase`, and the committed config came from construction with a
temperature-only override. -/
def witnessSession : SessionState :=
  { configDoc := Except.ok witnessBase
    chat_config := get_chat_config witnessBase (some { temperature := some (1/2) }) }

/-- Session state whose config-file read fails, for the reset-failure
witness. -/
def witnessBrokenSession : SessionState :=
  { configDoc := Except.error (), chat_config := witnessBase }

/-- A file system with no files and no directories at all, for the
model-resolution-failure witness. -/
def emptyFileSystem : FileSystem :=
  { isFile := fun _ => false
    isDir := fun _ => false
    file_in_dir := fun _ _ h => h }

/-- Override step with an unset override value keeps the base value. -/
theorem ov_eq_base {α : Type} (b : Option α) {o : Option α} (h : o = none) : ov b o = b := by
  subst h; rfl

/-- Override step with a set override value takes the override value. -/
theorem ov_eq_override {α : Type} (b : Option α) {o : Option α} {v : α} (h : o = some v) :
    ov b o = some v := by
  subst h; rfl

/-- The mismatch scan of a sequence against itself extended by a suffix
runs off the end of the shorter sequence and returns its length. -/
theorem first_idx_mismatch_append (A t : List Nat) :
    first_idx_mismatch A (A ++ t) = A.length := by
  induction A with
  | nil => cases t <;> simp [first_idx_mismatch]
  | cons a as ih => simp [first_idx_mismatch, ih]

/-- C4: for all byte sequences `A` and `B`, the common-prefix length `p`
computed by `_first_idx_mismatch` satisfies `A[:p] == B[:p]`, and either
`p == len(A)`, or `p == len(B)`, or `A[p] != B[p]`. -/
theorem first_idx_mismatch_spec (A B : List Nat) :
    A.take (first_idx_mismatch A B) = B.take (first_idx_mismatch A B) ∧
    (first_idx_mismatch A B = A.length ∨ first_idx_mismatch A B = B.length ∨
      A.get? (first_idx_mismatch A B) ≠ B.get? (first_idx_mismatch A B)) := by
  induction A generalizing B with
  | nil => simp [first_idx_mismatch]
  | cons a as ih =>
      cases B with
      | nil => simp [first_idx_mismatch]
      | cons b bs =>
          by_cases h : a = b
          · subst h
            obtain ⟨h1, h2⟩ := ih bs
            refine ⟨?_, ?_⟩
            · simp [first_idx_mismatch, h1]
            · rcases h2 with h2 | h2 | h2
              · exact Or.inl (by simp [first_idx_mismatch, h2])
              · exact Or.inr (Or.inl (by simp [first_idx_mismatch, h2]))
              · exact Or.inr (Or.inr (by simpa [first_idx_mismatch] using h2))
          · refine ⟨by simp [first_idx_mismatch, h], Or.inr (Or.inr ?_)⟩
            simp [first_idx_mismatch, h]

/-- C5: when the previous snapshot is a byte-for-byte prefix of the
current one, the reconciler yields zero erase instructions and appends
exactly the bytes past the previous snapshot's length; in particular,
reconciling a snapshot with itself yields zero erasures and zero appended
bytes. -/
theorem reconcile_append_only :
    (∀ A B : List Nat, (∃ t, B = A ++ t) → reconcile A B = (0, B.drop A.length)) ∧
    (∀ X : List Nat, reconcile X X = (0, [])) := by
  constructor
  · rintro A B ⟨t, rfl⟩
    simp [reconcile, first_idx_mismatch_append]
  · intro X
    have h := first_idx_mismatch_append X []
    rw [List.append_nil] at h
    simp [reconcile, h]

/-- Witness for C5 at concrete inputs: `"H"` against `"Hi"` and `"Hi"`
against itself. -/
theorem reconcile_append_only_witness :
    reconcile [72] [72, 105] = (0, [105]) ∧ reconcile [72, 105] [72, 105] = (0, []) :=
  ⟨reconcile_append_only.1 [72] [72, 105] ⟨[105], rfl⟩, reconcile_append_only.2 [72, 105]⟩

/-- C3: merge additivity. `get_chat_config B none = B`, and for every
base `B` and override `O`, the merged configuration equals `B` in every
top-level field where `O`'s field is unset, and carries `O`'s value in
every top-level field `O` sets. -/
theorem merge_additivity :
    (∀ B : ChatConfig, get_chat_config B none = B) ∧
    (∀ B O : ChatConfig,
      ((O.model_lib = none → (get_chat_config B (some O)).model_lib = B.model_lib) ∧
        ∀ v, O.model_lib = some v → (get_chat_config B (some O)).model_lib = some v) ∧
      ((O.local_id = none → (get_chat_config B (some O)).local_id = B.local_id) ∧
        ∀ v, O.local_id = some v → (get_chat_config B (some O)).local_id = some v) ∧
      ((O.conv_template = none → (get_chat_config B (some O)).conv_template = B.conv_template) ∧
        ∀ v, O.conv_template = some v → (get_chat_config B (some O)).conv_template = some v) ∧
      ((O.temperature = none → (get_chat_config B (some O)).temperature = B.temperature) ∧
        ∀ v, O.temperature = some v → (get_chat_config B (some O)).temperature = some v) ∧
      ((O.repetition_penalty = none →
          (get_chat_config B (some O)).repetition_penalty = B.repetition_penalty) ∧
        ∀ v, O.repetition_penalty = some v →
          (get_chat_config B (some O)).repetition_penalty = some v) ∧
      ((O.top_p = none → (get_chat_config B (some O)).top_p = B.top_p) ∧
        ∀ v, O.top_p = some v → (get_chat_config B (some O)).top_p = some v) ∧
      ((O.mean_gen_len = none → (get_chat_config B (some O)).mean_gen_len = B.mean_gen_len) ∧
        ∀ v, O.mean_gen_len = some v → (get_chat_config B (some O)).mean_gen_len = some v) ∧
      ((O.max_gen_len = none → (get_chat_config B (some O)).max_gen_len = B.max_gen_len) ∧
        ∀ v, O.max_gen_len = some v → (get_chat_config B (some O)).max_gen_len = some v) ∧
      ((O.shift_fill_factor = none →
          (get_chat_config B (some O)).shift_fill_factor = B.shift_fill_factor) ∧
        ∀ v, O.shift_fill_factor = some v →
          (get_chat_config B (some O)).shift_fill_factor = some v) ∧
      ((O.tokenizer_files = none →
          (get_chat_config B (some O)).tokenizer_files = B.tokenizer_files) ∧
        ∀ v, O.tokenizer_files = some v → (get_chat_config B (some O)).tokenizer_files = some v) ∧
      ((O.conv_config = none → (get_chat_config B (some O)).conv_config = B.conv_config) ∧
        ∀ v, O.conv_config = some v → (get_chat_config B (some O)).conv_config = some v) ∧
      ((O.model_category = none →
          (get_chat_config B (some O)).model_category = B.model_category) ∧
        ∀ v, O.model_category = some v → (get_chat_config B (some O)).model_category = some v) ∧
      ((O.model_name = none → (get_chat_config B (some O)).model_name = B.model_name) ∧
        ∀ v, O.model_name = some v → (get_chat_config B (some O)).model_name = some v)) := by
  refine ⟨fun B => rfl, fun B O => ?_⟩
  exact ⟨⟨fun h => ov_eq_base _ h, fun v h => ov_eq_override _ h⟩,
    ⟨fun h => ov_eq_base _ h, fun v h => ov_eq_override _ h⟩,
    ⟨fun h => ov_eq_base _ h, fun v h => ov_eq_override _ h⟩,
    ⟨fun h => ov_eq_base _ h, fun v h => ov_eq_override _ h⟩,
    ⟨fun h => ov_eq_base _ h, fun v h => ov_eq_override _ h⟩,
    ⟨fun h => ov_eq_base _ h, fun v h => ov_eq_override _ h⟩,
    ⟨fun h => ov_eq_base _ h, fun v h => ov_eq_override _ h⟩,
    ⟨fun h => ov_eq_base _ h, fun v h => ov_eq_override _ h⟩,
    ⟨fun h => ov_eq_base _ h, fun v h => ov_eq_override _ h⟩,
    ⟨fun h => ov_eq_base _ h, fun v h => ov_eq_override _ h⟩,
    ⟨fun h => ov_eq_base _ h, fun v h => ov_eq_override _ h⟩,
    ⟨fun h => ov_eq_base _ h, fun v h => ov_eq_override _ h⟩,
    ⟨fun h => ov_eq_base _ h, fun v h => ov_eq_override _ h⟩⟩

/-- Witness for C3 at concrete configurations: a null override changes
nothing, an unset `temperature` keeps the base's, and a set `top_p` is
taken from the override. -/
theorem merge_additivity_witness :
    get_chat_config witnessBase none = witnessBase ∧
    (get_chat_config witnessBase (some witnessOverride)).temperature = witnessBase.temperature ∧
    (get_chat_config witnessBase (some witnessOverride)).top_p = some (4/5) :=
  ⟨merge_additivity.1 witnessBase,
   ((merge_additivity.2 witnessBase witnessOverride).2.2.2.1).1 rfl,
   ((merge_additivity.2 witnessBase witnessOverride).2.2.2.2.2.1).2 (4/5) rfl⟩

/-- C2 counterexample: the base's nested conversation sub-record sets
`system`, the override's nested sub-record sets only `name`, yet the
merged configuration's nested sub-record is the override's record
wholesale: its `system` field is unset, the base's `system` value is
lost. -/
theorem conv_merge_not_fieldwise :
    convMergeBaseConv.system = some "A chat." ∧
    convMergeOvConv.system = none ∧
    (get_chat_config convMergeBase (some convMergeOv)).conv_config = some convMergeOvConv ∧
    ((get_chat_config convMergeBase (some convMergeOv)).conv_config.map ConvConfig.system) =
      some none := by
  exact ⟨rfl, rfl, rfl, rfl⟩

/-- C2 amended: the nested conversation sub-record is NOT merged
field-by-field; the `conv_config` field is overridden wholesale like
every other top-level field. When the override sets `conv_config`, the
merged configuration's nested sub-record is exactly the override's
nested record (nested fields the override leaves unset are unset in the
result); the base's nested record survives only when the override leaves
`conv_config` entirely unset. -/
theorem conv_merge_wholesale (B O : ChatConfig) :
    (O.conv_config = none → (get_chat_config B (some O)).conv_config = B.conv_config) ∧
    (∀ C, O.conv_config = some C → (get_chat_config B (some O)).conv_config = some C) :=
  ⟨fun h => ov_eq_base _ h, fun _ h => ov_eq_override _ h⟩

/-- Witness for the amended C2 at the counterexample's configurations. -/
theorem conv_merge_wholesale_witness :
    (get_chat_config convMergeBase (some convMergeOv)).conv_config = some convMergeOvConv :=
  (conv_merge_wholesale convMergeBase convMergeOv).2 convMergeOvConv rfl

/-- C1 counterexample: on the mock backend with snapshots `""`, `"Hi"`,
`"Hi!"` and stop first reported after the third decode, `generate` with
`poll_interval = 1` invokes the sink four times — an extra empty delta
`(erase=0, append="")` precedes `(0, "Hi")`, `(0, "!")` and the
end-of-stream call, because at loop index 0 the poll condition
`0 % 1 == 0` already holds while the snapshot is still empty. So the
claimed three-invocation trace is not what the code produces. -/
theorem generate_scenario_cex :
    generate scenarioBackend 1 10 =
      some [SinkCall.msg 0 [], SinkCall.msg 0 [72, 105], SinkCall.msg 0 [33], SinkCall.stop] ∧
    generate scenarioBackend 1 10 ≠
      some [SinkCall.msg 0 [72, 105], SinkCall.msg 0 [33], SinkCall.stop] := by
  constructor
  · decide
  · decide

/-- C1 amended: on that mock backend, `generate` with `poll_interval = 1`
invokes the sink with exactly the deltas `(erase=0, append="")`,
`(erase=0, append="Hi")`, `(erase=0, append="!")`, then the end-of-stream
signal, in that order, with no other sink invocations. -/
theorem generate_scenario :
    generate scenarioBackend 1 10 =
      some [SinkCall.msg 0 [], SinkCall.msg 0 [72, 105], SinkCall.msg 0 [33], SinkCall.stop] := by
  decide

/-- C10: the serialization operation mutates its argument in place
(`chat_config.conv_template = conv_template`, chat_module.py line 435).
In the explicit-state embedding, the post-call value of the caller's
override object differs from the pre-call value exactly by its
`conv_template` field, which now equals the resolved template name. -/
theorem convert_mutates_argument (O : ChatConfig) (T : String) :
    (convert_chat_config_to_json_str (some O) (some T)).1 =
      some { O with conv_template := some T } ∧
    ((convert_chat_config_to_json_str (some O) (some T)).1.map ChatConfig.conv_template) =
      some (some T) :=
  ⟨rfl, rfl⟩

/-- Lookup distributes over dictionary concatenation: the first segment's
binding wins when present. -/
theorem dictFind_append (k : String) (l1 l2 : List (String × JVal)) :
    dictFind k (l1 ++ l2) = ov (dictFind k l2) (dictFind k l1) := by
  induction l1 with
  | nil => simp [dictFind, ov]
  | cons p rest ih =>
      obtain ⟨a, v⟩ := p
      by_cases h : k = a <;> simp [dictFind, h, ih, ov]

/-- Lookup of an optional entry's own key yields the encoded field value
exactly when the field is set. -/
theorem dictFind_optEntry_self {α : Type} (k : String) (f : α → JVal) (o : Option α) :
    dictFind k (optEntry k f o) = o.map f := by
  cases o <;> simp [optEntry, dictFind]

/-- Lookup of a different key in an optional entry yields nothing,
whether or not the field is set. -/
theorem dictFind_optEntry_ne {α : Type} {k k' : String} (f : α → JVal) (o : Option α)
    (h : k' ≠ k) : dictFind k' (optEntry k f o) = none := by
  cases o <;> simp [optEntry, dictFind, h]

/-- An unset override value leaves the base value (rewrite form). -/
theorem ov_base_none {α : Type} (b : Option α) : ov b none = b := rfl

/-- Overriding from an empty base yields the override value itself. -/
theorem ov_none_base {α : Type} (o : Option α) : ov none o = o := by
  cases o <;> rfl

/-- Lookup of `model_lib` in the serialized top-level dictionary. -/
theorem dictFind_chat_model_lib (c : ChatConfig) :
    dictFind "model_lib" (chatConfigDict c) = c.model_lib.map JVal.s := by
  simp [chatConfigDict, dictFind_append, dictFind_optEntry_self, dictFind_optEntry_ne,
    ov_base_none, ov_none_base]

/-- Lookup of `local_id` in the serialized top-level dictionary. -/
theorem dictFind_chat_local_id (c : ChatConfig) :
    dictFind "local_id" (chatConfigDict c) = c.local_id.map JVal.s := by
  simp [chatConfigDict, dictFind_append, dictFind_optEntry_self, dictFind_optEntry_ne,
    ov_base_none, ov_none_base]

/-- Lookup of `conv_template` in the serialized top-level dictionary. -/
theorem dictFind_chat_conv_template (c : ChatConfig) :
    dictFind "conv_template" (chatConfigDict c) = c.conv_template.map JVal.s := by
  simp [chatConfigDict, dictFind_append, dictFind_optEntry_self, dictFind_optEntry_ne,
    ov_base_none, ov_none_base]

/-- Lookup of `temperature` in the serialized top-level dictionary. -/
theorem dictFind_chat_temperature (c : ChatConfig) :
    dictFind "temperature" (chatConfigDict c) = c.temperature.map JVal.q := by
  simp [chatConfigDict, dictFind_append, dictFind_optEntry_self, dictFind_optEntry_ne,
    ov_base_none, ov_none_base]

/-- Lookup of `repetition_penalty` in the serialized top-level dictionary. -/
theorem dictFind_chat_repetition_penalty (c : ChatConfig) :
    dictFind "repetition_penalty" (chatConfigDict c) = c.repetition_penalty.map JVal.q := by
  simp [chatConfigDict, dictFind_append, dictFind_optEntry_self, dictFind_optEntry_ne,
    ov_base_none, ov_none_base]

/-- Lookup of `top_p` in the serialized top-level dictionary. -/
theorem dictFind_chat_top_p (c : ChatConfig) :
    dictFind "top_p" (chatConfigDict c) = c.top_p.map JVal.q := by
  simp [chatConfigDict, dictFind_append, dictFind_optEntry_self, dictFind_optEntry_ne,
    ov_base_none, ov_none_base]

/-- Lookup of `mean_gen_len` in the serialized top-level dictionary. -/
theorem dictFind_chat_mean_gen_len (c : ChatConfig) :
    dictFind "mean_gen_len" (chatConfigDict c) = c.mean_gen_len.map JVal.i := by
  simp [chatConfigDict, dictFind_append, dictFind_optEntry_self, dictFind_optEntry_ne,
    ov_base_none, ov_none_base]

/-- Lookup of `max_gen_len` in the serialized top-level dictionary. -/
theorem dictFind_chat_max_gen_len (c : ChatConfig) :
    dictFind "max_gen_len" (chatConfigDict c) = c.max_gen_len.map JVal.i := by
  simp [chatConfigDict, dictFind_append, dictFind_optEntry_self, dictFind_optEntry_ne,
    ov_base_none, ov_none_base]

/-- Lookup of `shift_fill_factor` in the serialized top-level dictionary. -/
theorem dictFind_chat_shift_fill_factor (c : ChatConfig) :
    dictFind "shift_fill_factor" (chatConfigDict c) = c.shift_fill_factor.map JVal.q := by
  simp [chatConfigDict, dictFind_append, dictFind_optEntry_self, dictFind_optEntry_ne,
    ov_base_none, ov_none_base]

/-- Lookup of `tokenizer_files` in the serialized top-level dictionary. -/
theorem dictFind_chat_tokenizer_files (c : ChatConfig) :
    dictFind "tokenizer_files" (chatConfigDict c) = c.tokenizer_files.map JVal.ls := by
  simp [chatConfigDict, dictFind_append, dictFind_optEntry_self, dictFind_optEntry_ne,
    ov_base_none, ov_none_base]

/-- Lookup of `conv_config` in the serialized top-level dictionary: the
nested filtered dictionary, exactly when the field is set. -/
theorem dictFind_chat_conv_config (c : ChatConfig) :
    dictFind "conv_config" (chatConfigDict c) =
      c.conv_config.map (fun cc => JVal.dict (convConfigDict cc)) := by
  simp [chatConfigDict, dictFind_append, dictFind_optEntry_self, dictFind_optEntry_ne,
    ov_base_none, ov_none_base]

/-- Lookup of `model_category` in the serialized top-level dictionary. -/
theorem dictFind_chat_model_category (c : ChatConfig) :
    dictFind "model_category" (chatConfigDict c) = c.model_category.map JVal.s := by
  simp [chatConfigDict, dictFind_append, dictFind_optEntry_self, dictFind_optEntry_ne,
    ov_base_none, ov_none_base]

/-- Lookup of `model_name` in the serialized top-level dictionary. -/
theorem dictFind_chat_model_name (c : ChatConfig) :
    dictFind "model_name" (chatConfigDict c) = c.model_name.map JVal.s := by
  simp [chatConfigDict, dictFind_append, dictFind_optEntry_self, dictFind_optEntry_ne,
    ov_base_none, ov_none_base]

/-- Lookup of `name` in the serialized nested conversation dictionary. -/
theorem dictFind_conv_name (c : ConvConfig) :
    dictFind "name" (convConfigDict c) = c.name.map JVal.s := by
  simp [convConfigDict, dictFind_append, dictFind_optEntry_self, dictFind_optEntry_ne,
    ov_base_none, ov_none_base]

/-- Lookup of `system` in the serialized nested conversation dictionary. -/
theorem dictFind_conv_system (c : ConvConfig) :
    dictFind "system" (convConfigDict c) = c.system.map JVal.s := by
  simp [convConfigDict, dictFind_append, dictFind_optEntry_self, dictFind_optEntry_ne,
    ov_base_none, ov_none_base]

/-- Lookup of `roles` in the serialized nested conversation dictionary. -/
theorem dictFind_conv_roles (c : ConvConfig) :
    dictFind "roles" (convConfigDict c) = c.roles.map JVal.ls := by
  simp [convConfigDict, dictFind_append, dictFind_optEntry_self, dictFind_optEntry_ne,
    ov_base_none, ov_none_base]

/-- Lookup of `messages` in the serialized nested conversation dictionary. -/
theorem dictFind_conv_messages (c : ConvConfig) :
    dictFind "messages" (convConfigDict c) = c.messages.map JVal.lls := by
  simp [convConfigDict, dictFind_append, dictFind_optEntry_self, dictFind_optEntry_ne,
    ov_base_none, ov_none_base]

/-- Lookup of `offset` in the serialized nested conversation dictionary. -/
theorem dictFind_conv_offset (c : ConvConfig) :
    dictFind "offset" (convConfigDict c) = c.offset.map JVal.s := by
  simp [convConfigDict, dictFind_append, dictFind_optEntry_self, dictFind_optEntry_ne,
    ov_base_none, ov_none_base]

/-- Lookup of `separator_style` in the serialized nested conversation
dictionary. -/
theorem dictFind_conv_separator_style (c : ConvConfig) :
    dictFind "separator_style" (convConfigDict c) = c.separator_style.map JVal.i := by
  simp [convConfigDict, dictFind_append, dictFind_optEntry_self, dictFind_optEntry_ne,
    ov_base_none, ov_none_base]

/-- Lookup of `seps` in the serialized nested conversation dictionary. -/
theorem dictFind_conv_seps (c : ConvConfig) :
    dictFind "seps" (convConfigDict c) = c.seps.map JVal.ls := by
  simp [convConfigDict, dictFind_append, dictFind_optEntry_self, dictFind_optEntry_ne,
    ov_base_none, ov_none_base]

/-- Lookup of `role_msg_sep` in the serialized nested conversation
dictionary. -/
theorem dictFind_conv_role_msg_sep (c : ConvConfig) :
    dictFind "role_msg_sep" (convConfigDict c) = c.role_msg_sep.map JVal.s := by
  simp [convConfigDict, dictFind_append, dictFind_optEntry_self, dictFind_optEntry_ne,
    ov_base_none, ov_none_base]

/-- Lookup of `role_empty_sep` in the serialized nested conversation
dictionary. -/
theorem dictFind_conv_role_empty_sep (c : ConvConfig) :
    dictFind "role_empty_sep" (convConfigDict c) = c.role_empty_sep.map JVal.s := by
  simp [convConfigDict, dictFind_append, dictFind_optEntry_self, dictFind_optEntry_ne,
    ov_base_none, ov_none_base]

/-- Lookup of `stop_str` in the serialized nested conversation dictionary. -/
theorem dictFind_conv_stop_str (c : ConvConfig) :
    dictFind "stop_str" (convConfigDict c) = c.stop_str.map JVal.s := by
  simp [convConfigDict, dictFind_append, dictFind_optEntry_self, dictFind_optEntry_ne,
    ov_base_none, ov_none_base]

/-- Lookup of `stop_tokens` in the serialized nested conversation
dictionary. -/
theorem dictFind_conv_stop_tokens (c : ConvConfig) :
    dictFind "stop_tokens" (convConfigDict c) = c.stop_tokens.map JVal.li := by
  simp [convConfigDict, dictFind_append, dictFind_optEntry_self, dictFind_optEntry_ne,
    ov_base_none, ov_none_base]

/-- Lookup of `add_bos` in the serialized nested conversation dictionary. -/
theorem dictFind_conv_add_bos (c : ConvConfig) :
    dictFind "add_bos" (convConfigDict c) = c.add_bos.map JVal.b := by
  simp [convConfigDict, dictFind_append, dictFind_optEntry_self, dictFind_optEntry_ne,
    ov_base_none, ov_none_base]

/-- C6: serialization omission. Serializing a null override yields the
empty payload; serializing a non-null override `O` against the resolved
template name `T` yields a dictionary that always binds `conv_template`
to `T`, binds a key for a field (top-level or nested in the conversation
sub-record) exactly when `O` sets that field, and omits the key for every
field `O` leaves unset. -/
theorem serialize_omission :
    (∀ T : Option String, convert_chat_config_to_json_str none T = (none, none)) ∧
    (∀ (O : ChatConfig) (T : String),
      ∃ d, (convert_chat_config_to_json_str (some O) (some T)).2 = some d ∧
        dictFind "conv_template" d = some (JVal.s T) ∧
        (∀ cc, O.conv_config = some cc →
          ∃ cd, dictFind "conv_config" d = some (JVal.dict cd) ∧
            hasKey "name" cd = cc.name.isSome ∧
            hasKey "system" cd = cc.system.isSome ∧
            hasKey "roles" cd = cc.roles.isSome ∧
            hasKey "messages" cd = cc.messages.isSome ∧
            hasKey "offset" cd = cc.offset.isSome ∧
            hasKey "separator_style" cd = cc.separator_style.isSome ∧
            hasKey "seps" cd = cc.seps.isSome ∧
            hasKey "role_msg_sep" cd = cc.role_msg_sep.isSome ∧
            hasKey "role_empty_sep" cd = cc.role_empty_sep.isSome ∧
            hasKey "stop_str" cd = cc.stop_str.isSome ∧
            hasKey "stop_tokens" cd = cc.stop_tokens.isSome ∧
            hasKey "add_bos" cd = cc.add_bos.isSome) ∧
        hasKey "model_lib" d = O.model_lib.isSome ∧
        hasKey "local_id" d = O.local_id.isSome ∧
        hasKey "temperature" d = O.temperature.isSome ∧
        hasKey "repetition_penalty" d = O.repetition_penalty.isSome ∧
        hasKey "top_p" d = O.top_p.isSome ∧
        hasKey "mean_gen_len" d = O.mean_gen_len.isSome ∧
        hasKey "max_gen_len" d = O.max_gen_len.isSome ∧
        hasKey "shift_fill_factor" d = O.shift_fill_factor.isSome ∧
        hasKey "tokenizer_files" d = O.tokenizer_files.isSome ∧
        hasKey "conv_config" d = O.conv_config.isSome ∧
        hasKey "model_category" d = O.model_category.isSome ∧
        hasKey "model_name" d = O.model_name.isSome) := by
  constructor
  · intro T; rfl
  · intro O T
    refine ⟨chatConfigDict { O with conv_template := some T }, rfl, ?_, ?_, ?_, ?_, ?_, ?_, ?_,
      ?_, ?_, ?_, ?_, ?_, ?_, ?_⟩
    · simp [dictFind_chat_conv_template]
    · intro cc h
      refine ⟨convConfigDict cc, ?_, ?_, ?_, ?_, ?_, ?_, ?_, ?_, ?_, ?_, ?_, ?_, ?_⟩
      · simp [dictFind_chat_conv_config, h]
      · simp [hasKey, dictFind_conv_name]
      · simp [hasKey, dictFind_conv_system]
      · simp [hasKey, dictFind_conv_roles]
      · simp [hasKey, dictFind_conv_messages]
      · simp [hasKey, dictFind_conv_offset]
      · simp [hasKey, dictFind_conv_separator_style]
      · simp [hasKey, dictFind_conv_seps]
      · simp [hasKey, dictFind_conv_role_msg_sep]
      · simp [hasKey, dictFind_conv_role_empty_sep]
      · simp [hasKey, dictFind_conv_stop_str]
      · simp [hasKey, dictFind_conv_stop_tokens]
      · simp [hasKey, dictFind_conv_add_bos]
    · simp [hasKey, dictFind_chat_model_lib]
    · simp [hasKey, dictFind_chat_local_id]
    · simp [hasKey, dictFind_chat_temperature]
    · simp [hasKey, dictFind_chat_repetition_penalty]
    · simp [hasKey, dictFind_chat_top_p]
    · simp [hasKey, dictFind_chat_mean_gen_len]
    · simp [hasKey, dictFind_chat_max_gen_len]
    · simp [hasKey, dictFind_chat_shift_fill_factor]
    · simp [hasKey, dictFind_chat_tokenizer_files]
    · simp [hasKey, dictFind_chat_conv_config]
    · simp [hasKey, dictFind_chat_model_category]
    · simp [hasKey, dictFind_chat_model_name]

/-- Witness for C6 at a concrete override that sets `temperature` and a
nested record setting only `system`: the payload has a `conv_template`
and a `temperature` key, no `top_p` key, and its nested dictionary has a
`system` key but no `name` key. -/
theorem serialize_omission_witness :
    convert_chat_config_to_json_str none (some "llama-2") = (none, none) ∧
    ∃ d, (convert_chat_config_to_json_str (some witnessSerOverride) (some "llama-2")).2 = some d ∧
      dictFind "conv_template" d = some (JVal.s "llama-2") ∧
      hasKey "temperature" d = true ∧ hasKey "top_p" d = false ∧
      ∃ cd, dictFind "conv_config" d = some (JVal.dict cd) ∧
        hasKey "system" cd = true ∧ hasKey "name" cd = false := by
  refine ⟨serialize_omission.1 (some "llama-2"), ?_⟩
  obtain ⟨d, h1, h2, h3, _, _, htemp, _, htp, _, _, _, _, _, _, _⟩ :=
    serialize_omission.2 witnessSerOverride "llama-2"
  obtain ⟨cd, g1, gname, gsystem, _⟩ := h3 { system := some "A chat." } rfl
  exact ⟨d, h1, h2, by simpa [witnessSerOverride] using htemp,
    by simpa [witnessSerOverride] using htp, cd, g1,
    by simpa using gsystem, by simpa using gname⟩

/-- C7: after constructing with a temperature-only override, resetting
with an override that sets only `top_p` issues exactly the
history-clearing call followed by one override-load call whose
partial-update flag is `true` and whose payload binds only the resolved
`conv_template` name and `top_p` — no `temperature` key appears. -/
theorem reset_partial_payload (base : ChatConfig) (T : String) (p : Rat) (st : SessionState)
    (hdoc : st.configDoc = Except.ok base)
    (htpl : base.conv_template = some T)
    (_hinit : st.chat_config = get_chat_config base (some { temperature := some (1/2) })) :
    reset_chat st (some { top_p := some p }) =
      ({ st with chat_config := get_chat_config base (some { top_p := some p }) },
       [BackendCall.resetChatCall,
        BackendCall.loadJsonOverride
          (some [("conv_template", JVal.s T), ("top_p", JVal.q p)]) true],
       false) := by
  have hmerge : get_chat_config_io st.configDoc (some { top_p := some p }) =
      Except.ok (get_chat_config base (some { top_p := some p })) := by
    rw [hdoc]; rfl
  have htpl' : (get_chat_config base (some { top_p := some p })).conv_template = some T := by
    simpa [get_chat_config, ov] using htpl
  simp only [reset_chat, hmerge, htpl']
  simp [convert_chat_config_to_json_str, chatConfigDict, optEntry]

/-- Witness for C7 at the concrete session built over `witnessBase` with
a temperature-only construction override. -/
theorem reset_partial_payload_witness :
    reset_chat witnessSession (some { top_p := some (4/5) }) =
      ({ witnessSession with
          chat_config := get_chat_config witnessBase (some { top_p := some (4/5) }) },
       [BackendCall.resetChatCall,
        BackendCall.loadJsonOverride
          (some [("conv_template", JVal.s "llama-2"), ("top_p", JVal.q (4/5))]) true],
       false) :=
  reset_partial_payload witnessBase "llama-2" (4/5) witnessSession rfl rfl rfl

/-- C8: when the re-merge step of `reset_chat` fails before the backend
override-load call, the committed session state is unchanged and no
override-load call is issued (only the history-clearing call happened);
the exception propagates. -/
theorem reset_failure_preserves_state (st : SessionState) (o : ChatConfig)
    (hdoc : st.configDoc = Except.error ()) :
    reset_chat st (some o) = (st, [BackendCall.resetChatCall], true) ∧
    ∀ pl pu, BackendCall.loadJsonOverride pl pu ∉ (reset_chat st (some o)).2.1 := by
  have h : reset_chat st (some o) = (st, [BackendCall.resetChatCall], true) := by
    simp [reset_chat, get_chat_config_io, hdoc]
  refine ⟨h, fun pl pu => ?_⟩
  rw [h]
  simp

/-- Witness for C8 at the concrete broken session. -/
theorem reset_failure_preserves_state_witness :
    reset_chat witnessBrokenSession (some witnessOverride) =
      (witnessBrokenSession, [BackendCall.resetChatCall], true) :=
  (reset_failure_preserves_state witnessBrokenSession witnessOverride rfl).1

/-- C9: when no candidate search path is an existing directory, model
resolution fails with the not-found error whose message lists all four
standard search-path templates evaluated against the identifier. -/
theorem model_not_found_lists_all_paths (fs : FileSystem) (model : String)
    (hnodir : ∀ c ∈ candidate_paths model, fs.isDir c = false) :
    get_model_path fs model =
      ModelPathResult.errNotFound
        [model, "dist/prebuilt/" ++ model, "dist/" ++ model ++ "/params",
         "dist/prebuilt/mlc-chat-" ++ model] := by
  have hfile : ∀ c ∈ candidate_paths model,
      ¬ fs.isFile (c ++ "/" ++ "mlc-chat-config.json") = true := by
    intro c hc hf
    have hd := fs.file_in_dir c "mlc-chat-config.json" hf
    rw [hnodir c hc] at hd
    exact Bool.false_ne_true hd
  have hfind : (candidate_paths model).find?
      (fun c => fs.isFile (c ++ "/" ++ "mlc-chat-config.json")) = none := by
    rw [List.find?_eq_none]
    exact hfile
  have hfilter : (candidate_paths model).filter fs.isDir = [] := by
    rw [List.filter_eq_nil_iff]
    intro a ha
    simp [hnodir a ha]
  simp only [get_model_path, hfind, hfilter, List.isEmpty_nil, if_true]
  rfl

/-- Witness for C9: on a file system with no directories and no files,
resolving the identifier `missing-model` yields the not-found error
listing the four candidate paths. -/
theorem model_not_found_lists_all_paths_witness :
    get_model_path emptyFileSystem "missing-model" =
      ModelPathResult.errNotFound
        ["missing-model", "dist/prebuilt/" ++ "missing-model",
         "dist/" ++ "missing-model" ++ "/params", "dist/prebuilt/mlc-chat-" ++ "missing-model"] :=
  model_not_found_lists_all_paths emptyFileSystem "missing-model" (fun _ _ => rfl)
